import Mathlib

/-!
Verification of `data/thermoml_archive/transform.py`.

The script is a linear download–verify–extract–convert pipeline:

* `_sha256_chunked_file_digest` reads a binary file in 8192-byte chunks,
  feeding each chunk into an incremental SHA-256 accumulator, and returns
  the lowercase hex digest.
* `get_and_transform_data` downloads the pinned archive if absent, verifies
  its SHA-256 digest against a pinned constant (fatal `RuntimeError` on
  mismatch), short-circuits when a correct output CSV already exists,
  renames a stale CSV aside, extracts the archive, parses every XML file
  under three DOI directories appending rows to the CSV (counting successes
  and failures), re-checks the CSV digest (warning only), and writes a
  metadata document whose `num_points` field is the success counter.

Byte streams are modelled as `List Nat` (each element a byte value),
files as `Option (List Nat)` (`none` = absent).  SHA-256 is implemented in
full (FIPS 180-4) on `Nat` with explicit reduction mod `2 ^ 32`; the
incremental accumulator of `hashlib` is modelled by its documented
semantics: the state is the byte sequence fed so far, `update` appends,
and `hexdigest` hashes the accumulated sequence.
-/

/-- Reduce a natural number to a 32-bit word. -/
def w32 (x : Nat) : Nat := x % 4294967296

/-- Right rotation of a 32-bit word by `n` bits. -/
def rotr (n x : Nat) : Nat := w32 ((x >>> n) ||| (x <<< (32 - n)))

/-- Bitwise complement of a 32-bit word. -/
def compl32 (x : Nat) : Nat := 4294967295 ^^^ x

/-- SHA-256 `Ch` function. -/
def shaCh (x y z : Nat) : Nat := (x &&& y) ^^^ (compl32 x &&& z)

/-- SHA-256 `Maj` function. -/
def shaMaj (x y z : Nat) : Nat := (x &&& y) ^^^ (x &&& z) ^^^ (y &&& z)

/-- SHA-256 big sigma 0. -/
def bigSigma0 (x : Nat) : Nat := rotr 2 x ^^^ rotr 13 x ^^^ rotr 22 x

/-- SHA-256 big sigma 1. -/
def bigSigma1 (x : Nat) : Nat := rotr 6 x ^^^ rotr 11 x ^^^ rotr 25 x

/-- SHA-256 small sigma 0. -/
def smallSigma0 (x : Nat) : Nat := rotr 7 x ^^^ rotr 18 x ^^^ (x >>> 3)

/-- SHA-256 small sigma 1. -/
def smallSigma1 (x : Nat) : Nat := rotr 17 x ^^^ rotr 19 x ^^^ (x >>> 10)

/-- The 64 SHA-256 round constants. -/
def K256 : List Nat :=
  [1116352408, 1899447441, 3049323471, 3921009573, 961987163, 1508970993,
   2453635748, 2870763221, 3624381080, 310598401, 607225278, 1426881987,
   1925078388, 2162078206, 2614888103, 3248222580, 3835390401, 4022224774,
   264347078, 604807628, 770255983, 1249150122, 1555081692, 1996064986,
   2554220882, 2821834349, 2952996808, 3210313671, 3336571891, 3584528711,
   113926993, 338241895, 666307205, 773529912, 1294757372, 1396182291,
   1695183700, 1986661051, 2177026350, 2456956037, 2730485921, 2820302411,
   3259730800, 3345764771, 3516065817, 3600352804, 4094571909, 275423344,
   430227734, 506948616, 659060556, 883997877, 958139571, 1322822218,
   1537002063, 1747873779, 1955562222, 2024104815, 2227730452, 2361852424,
   2428436474, 2756734187, 3204031479, 3329325298]

/-- The initial SHA-256 hash value. -/
def H256 : List Nat :=
  [1779033703, 3144134277, 1013904242, 2773480762, 1359893119, 2600822924,
   528734635, 1541459225]

/-- Big-endian byte encoding of a value in `k` bytes. -/
def beBytes : Nat → Nat → List Nat
  | 0, _ => []
  | k + 1, v => beBytes k (v / 256) ++ [v % 256]

/-- Pad a byte message per FIPS 180-4: append `0x80`, zero bytes until the
length is 56 mod 64, then the 8-byte big-endian bit length. -/
def padMessage (msg : List Nat) : List Nat :=
  let L := msg.length
  let z := (119 - L % 64) % 64
  msg ++ (0x80 :: List.replicate z 0) ++ beBytes 8 (L * 8)

/-- Group a byte list into big-endian 32-bit words (4 bytes per word). -/
def beWords : List Nat → List Nat
  | b0 :: b1 :: b2 :: b3 :: rest =>
      (((b0 * 256 + b1) * 256 + b2) * 256 + b3) :: beWords rest
  | _ => []

/-- Fuel-driven worker for `chunksOfPos`; each produced chunk consumes at
least one list element, so fuel `l.length` always suffices. -/
def chunksGo (n : Nat) : Nat → List Nat → List (List Nat)
  | _, [] => []
  | 0, _ :: _ => []
  | fuel + 1, x :: xs =>
      (x :: xs).take (n + 1) :: chunksGo n fuel ((x :: xs).drop (n + 1))

/-- Split a list into consecutive chunks of size `n + 1` (the last chunk may
be shorter); every chunk is nonempty.  `chunksOfPos 8191 l` models the byte
chunks produced by `iter(lambda: fp.read(8192), b"")`. -/
def chunksOfPos (n : Nat) (l : List Nat) : List (List Nat) :=
  chunksGo n l.length l

/-- Extend a 16-word message schedule by `k` further words. -/
def extendSchedule : Nat → List Nat → List Nat
  | 0, ws => ws
  | k + 1, ws =>
      let i := ws.length
      let wNew := w32 (ws.getD (i - 16) 0 + smallSigma0 (ws.getD (i - 15) 0) +
        ws.getD (i - 7) 0 + smallSigma1 (ws.getD (i - 2) 0))
      extendSchedule k (ws ++ [wNew])

/-- One SHA-256 compression round on the 8-word working state. -/
def compressStep (st : List Nat) (k w : Nat) : List Nat :=
  match st with
  | [a, b, c, d, e, f, g, h] =>
      let t1 := w32 (h + bigSigma1 e + shaCh e f g + k + w)
      let t2 := w32 (bigSigma0 a + shaMaj a b c)
      [w32 (t1 + t2), a, b, c, w32 (d + t1), e, f, g]
  | other => other

/-- Compress one 16-word block into the running 8-word hash state. -/
def compressBlock (h : List Nat) (block : List Nat) : List Nat :=
  let ws := extendSchedule 48 block
  let hEnd := (K256.zip ws).foldl (fun st p => compressStep st p.1 p.2) h
  List.zipWith (fun x y => w32 (x + y)) h hEnd

/-- The eight 32-bit words of the SHA-256 digest of a byte message. -/
def sha256Words (msg : List Nat) : List Nat :=
  (chunksOfPos 15 (beWords (padMessage msg))).foldl compressBlock H256

/-- The sixteen lowercase hex digit characters. -/
def hexDigitChar (n : Nat) : Char :=
  "0123456789abcdef".toList.getD n (Char.ofNat 48)

/-- The `k` lowercase hex digits of a value, most significant first. -/
def hexDigitsOf : Nat → Nat → List Char
  | 0, _ => []
  | k + 1, v => hexDigitsOf k (v / 16) ++ [hexDigitChar (v % 16)]

/-- Lowercase 8-hex-digit rendering of a 32-bit word. -/
def hexOfWord (v : Nat) : String := String.mk (hexDigitsOf 8 v)

/-- Single-shot SHA-256: the lowercase hexadecimal digest string of a whole
byte sequence (reference semantics of `hashlib.sha256(data).hexdigest()`). -/
def sha256hex (msg : List Nat) : String :=
  String.join ((sha256Words msg).map hexOfWord)

/-- The state of an incremental SHA-256 accumulator, modelled extensionally
as the byte sequence fed so far (`hashlib` documents `m.update(a)` followed
by `m.update(b)` as equivalent to `m.update(a ++ b)`). -/
def shaInit : List Nat := []

/-- `sha256.update(chunk)`: feed one chunk into the accumulator. -/
def shaUpdate (st chunk : List Nat) : List Nat := st ++ chunk

/-- `sha256.hexdigest()`: lowercase hex digest of everything fed so far. -/
def shaHexdigest (st : List Nat) : String := sha256hex st

/-- `_sha256_chunked_file_digest(fp)`: read the stream in 8192-byte chunks
until exhaustion, feed each chunk into the incremental accumulator, return
the lowercase hex digest. -/
def sha256_chunked_file_digest (fp : List Nat) : String :=
  let sha256 := (chunksOfPos 8191 fp).foldl shaUpdate shaInit
  shaHexdigest sha256

/-!
## The pipeline `get_and_transform_data`

The script manipulates four files (all paths fixed): the downloaded archive,
the output CSV `thermoml_archive.csv`, the renamed-aside
`thermoml_archive.old.csv`, and `meta.yaml`.  A `World` records their
contents (`none` = file absent).  External collaborators — the HTTP response
body, the `glob` of `*.xml` files in each DOI directory of the extracted
archive, and the `ThermoPylParser`/`pandas` parse-and-serialize of one XML
file (which may raise) — form an `Env`.  Observable effects (download,
extraction, `warnings.warn`, `print`) are collected in a `Trace`, and the
run ends in an `Outcome` (normal return or raised exception).

`get_and_transform_data_g` is the pipeline with the digest function as an
explicit parameter; the script itself is `get_and_transform_data`, the
instance at `sha256_chunked_file_digest`.
-/

/-- Archive file name pinned by the script. -/
def fname : String := "ThermoML.v2020-09-30.tgz"

/-- Remote URL of the pinned archive. -/
def remote_data_path : String := "https://data.nist.gov/od/ds/mds2-2422/" ++ fname

/-- Pinned SHA-256 digest of the archive. -/
def sha256_checksum : String :=
  "231161b5e443dc1ae0e5da8429d86a88474cb722016e5b790817bb31c58d7ec2"

/-- Pinned SHA-256 digest of the fully built output CSV. -/
def final_expected_csv_checksum : String :=
  "fc296f47c1877b6ace72f7aa4a80c489b80d0eb25ea3a59885d067e554378b08"

/-- The three fixed DOI-named top-level directories scanned for XML files. -/
def root_dois : List String := ["10.1007", "10.1016", "10.1021"]

/-- The metadata document written to `meta.yaml`.  The `Dataset` model also
carries fixed literal fields (description, identifier placeholders, links,
bibtex) that never depend on the run; only the run-relevant fields are kept
here, `num_points` being the only non-constant one. -/
structure MetaYaml where
  name : String
  license : String
  num_points : Nat
  deriving DecidableEq, Repr

/-- Contents of the four files the script touches; `none` means absent. -/
structure World where
  archive : Option (List Nat)
  csv : Option (List Nat)
  oldCsv : Option (List Nat)
  meta : Option MetaYaml
  deriving DecidableEq, Repr

/-- External collaborators: the remote response body, the `glob("*.xml")`
listing for each DOI directory of the extracted archive bytes (files are
opaque ids), and the parse-and-serialize of one file, returning the CSV
bytes appended on success or an exception. -/
structure Env where
  remote : List Nat
  xmlFiles : List Nat → String → List Nat
  parse : Nat → Except Unit (List Nat)

/-- Observable effects of one run. -/
structure Trace where
  downloaded : Bool
  extracted : Bool
  warned : List String
  printed : List String
  deriving DecidableEq, Repr

/-- Run result: normal return, or an uncaught exception with its message. -/
inductive Outcome where
  | ok : Outcome
  | error : String → Outcome
  deriving DecidableEq, Repr

/-- Message of the fatal `RuntimeError` on archive digest mismatch. -/
def checksum_error_message (expected received : String) : String :=
  "Downloaded file did not match expected checksum -- " ++
  "either a new version has been released or something has gone wrong!\n" ++
  "Expected: " ++ expected ++ "\n" ++ "Received: " ++ received

/-- Warning issued before renaming a stale CSV aside. -/
def stale_csv_warning : String :=
  "Old CSV file did not match expected checksum, will try to recreate."

/-- Message printed on the early-exit path when the CSV is already correct. -/
def correct_csv_message : String :=
  "Correct csv file already available at thermoml_archive.csv, exiting..."

/-- Summary line printed after the conversion loop. -/
def ingested_message (num_points num_failed : Nat) : String :=
  "Ingested " ++ toString num_points ++ " with " ++ toString num_failed ++
  " failures."

/-- Warning issued when the rebuilt CSV digest does not match the pin. -/
def final_csv_warning (expected received : String) : String :=
  "Final CSV file did not match expected checksum!\n" ++
  "Expected: " ++ expected ++ "\n" ++ "Received: " ++ received

/-- The exception raised by reopening the output CSV when it was never
created (no successful parse and no pre-existing file). -/
def file_not_found_message : String := "FileNotFoundError: thermoml_archive.csv"

/-- Model of the `requests.Response` returned by `requests.get` called
without `stream=True` (as the source does): the entire response body has
already been read into memory, in the `content` field, by the time the
call returns. -/
structure Response where
  content : List Nat

/-- `requests.get(remote_data_path)`: performs the transfer and buffers the
whole response body in memory. -/
def requests_get (remote : List Nat) : Response := ⟨remote⟩

/-- `data.iter_content(chunk_size=8192)`: with no `stream=True` on the
request, these are 8192-byte slices of the already buffered body. -/
def iter_content (data : Response) : List (List Nat) :=
  chunksOfPos 8191 data.content

/-- Number of bytes of the response body resident in memory when
`requests.get` returns — before the first chunk is written to disk. -/
def bufferedBodyBytes (remote : List Nat) : Nat :=
  (requests_get remote).content.length

/-- Bytes written to disk by the download loop: each chunk yielded by
`iter_content` is appended to the file in order. -/
def downloadedBytes (remote : List Nat) : List Nat :=
  (iter_content (requests_get remote)).foldl (fun acc chunk => acc ++ chunk) []

/-- Contents of the archive file after the conditional download: the
existing file if present, otherwise the downloaded response body. -/
def archiveBytesOf (env : Env) (w : World) : List Nat :=
  match w.archive with
  | some b => b
  | none => downloadedBytes env.remote

/-- One iteration of the conversion loop on the accumulator
(csv contents, `num_points`, `num_failed`): try to parse the file and append
its rows to the CSV (creating it if absent, as `to_csv(..., mode="a")`
does), else count the failure and continue. -/
def parseAppendStep (env : Env) (acc : Option (List Nat) × Nat × Nat)
    (file : Nat) : Option (List Nat) × Nat × Nat :=
  match env.parse file with
  | Except.ok rows => (some (acc.1.getD [] ++ rows), acc.2.1 + 1, acc.2.2)
  | Except.error _ => (acc.1, acc.2.1, acc.2.2 + 1)

/-- The nested conversion loop: for each DOI directory in order, for each
XML file found there, parse-and-append, starting from the current CSV
contents with both counters at zero. -/
def conversionLoop (env : Env) (ab : List Nat) (csv0 : Option (List Nat)) :
    Option (List Nat) × Nat × Nat :=
  root_dois.foldl
    (fun acc doi => (env.xmlFiles ab doi).foldl (parseAppendStep env) acc)
    (csv0, 0, 0)

/-- The metadata descriptor constructed at the end of a successful run. -/
def metaDescriptor (num_points : Nat) : MetaYaml :=
  { name := "thermoml_archive",
    license := "https://www.nist.gov/open/license",
    num_points := num_points }

/-- Extraction, conversion loop, summary print, CSV re-open and digest
re-check (warning only), metadata write.  Reopening the CSV raises
`FileNotFoundError` when the loop never created it. -/
def convertPhase (hash : List Nat → String) (env : Env) (ab : List Nat)
    (w : World) (t : Trace) : Outcome × World × Trace :=
  let t1 : Trace := { t with extracted := true }
  let r := conversionLoop env ab w.csv
  let w1 : World := { w with csv := r.1 }
  let t2 : Trace := { t1 with printed := t1.printed ++ [ingested_message r.2.1 r.2.2] }
  match r.1 with
  | none => (Outcome.error file_not_found_message, w1, t2)
  | some csvBytes =>
      let csv_hash := hash csvBytes
      let t3 : Trace :=
        if csv_hash ≠ final_expected_csv_checksum then
          { t2 with warned := t2.warned ++
              [final_csv_warning final_expected_csv_checksum csv_hash] }
        else t2
      let w2 : World := { w1 with meta := some (metaDescriptor r.2.1) }
      (Outcome.ok, w2, t3)

/-- The whole pipeline, with the digest function as a parameter: conditional
download, archive digest verification (fatal on mismatch), early exit when a
correct CSV exists / rename-aside when a stale CSV exists, then the convert
phase. -/
def get_and_transform_data_g (hash : List Nat → String) (env : Env)
    (w0 : World) : Outcome × World × Trace :=
  let ab := archiveBytesOf env w0
  let w1 : World := { w0 with archive := some ab }
  let t1 : Trace :=
    { downloaded := w0.archive.isNone, extracted := false,
      warned := [], printed := [] }
  let received_hash := hash ab
  if received_hash ≠ sha256_checksum then
    (Outcome.error (checksum_error_message sha256_checksum received_hash), w1, t1)
  else
    match w0.csv with
    | some csvBytes =>
        let csv_sha256_checksum := hash csvBytes
        if csv_sha256_checksum ≠ final_expected_csv_checksum then
          let w2 : World := { w1 with csv := none, oldCsv := some csvBytes }
          let t2 : Trace := { t1 with warned := t1.warned ++ [stale_csv_warning] }
          convertPhase hash env ab w2 t2
        else
          (Outcome.ok, w1,
            { t1 with printed := t1.printed ++ [correct_csv_message] })
    | none => convertPhase hash env ab w1 t1

/-- The script's entry point: the pipeline at the real chunked digest. -/
def get_and_transform_data (env : Env) (w : World) : Outcome × World × Trace :=
  get_and_transform_data_g sha256_chunked_file_digest env w

/-!
## Helper definitions for stating loop-level properties
-/

/-- All XML files processed by the conversion loop, in enumeration order:
the concatenation of the per-DOI-directory listings. -/
def filesOf (env : Env) (ab : List Nat) : List Nat :=
  (root_dois.map (env.xmlFiles ab)).flatten

/-- Whether parsing one file succeeds (no exception raised). -/
def parseOk (env : Env) (file : Nat) : Bool :=
  match env.parse file with
  | Except.ok _ => true
  | Except.error _ => false

/-- Number of files in `fs` that parse successfully. -/
def okCount (env : Env) (fs : List Nat) : Nat := fs.countP (parseOk env)

/-- Number of files in `fs` whose parse raises. -/
def failCount (env : Env) (fs : List Nat) : Nat :=
  fs.countP (fun f => !parseOk env f)

/-- Effect of one loop iteration on the CSV file alone. -/
def csvStep (env : Env) (csv : Option (List Nat)) (file : Nat) :
    Option (List Nat) :=
  match env.parse file with
  | Except.ok rows => some (csv.getD [] ++ rows)
  | Except.error _ => csv

/-- CSV file contents after processing the files `fs` starting from `csv0`. -/
def csvAfter (env : Env) (csv0 : Option (List Nat)) (fs : List Nat) :
    Option (List Nat) :=
  fs.foldl (csvStep env) csv0

/-!
## Concrete worlds, environments and digest oracles used as inputs
-/

/-- A world with no files on disk at all. -/
def wEmpty : World := { archive := none, csv := none, oldCsv := none, meta := none }

/-- An environment with an empty remote body, no XML files anywhere, and a
parser that always raises. -/
def envNone : Env :=
  { remote := [], xmlFiles := fun _ _ => [], parse := fun _ => Except.error () }

/-- A world with the empty-stream archive present, a one-byte CSV present,
and nothing else. -/
def wCsvOne : World :=
  { archive := some [], csv := some [1], oldCsv := none, meta := none }

/-- A world with the empty-stream archive present and no other files. -/
def wArchOnly : World :=
  { archive := some [], csv := none, oldCsv := none, meta := none }

/-- A digest oracle under which the empty stream carries the pinned archive
digest and every other stream carries the pinned CSV digest. -/
def hashArchCsv : List Nat → String :=
  fun b => if b = [] then sha256_checksum else final_expected_csv_checksum

/-- A digest oracle under which the empty stream carries the pinned archive
digest and every other stream carries a non-pinned value. -/
def hashArchOnly : List Nat → String :=
  fun b => if b = [] then sha256_checksum else "stale"

/-- A digest oracle assigning every stream the pinned archive digest. -/
def hashPin : List Nat → String := fun _ => sha256_checksum

/-- A digest oracle never returning a pinned value. -/
def hashBad : List Nat → String := fun _ => "zz"

/-- Environment with one XML file (id 0) in the first DOI directory whose
parse raises. -/
def envOneFail : Env :=
  { remote := [],
    xmlFiles := fun _ doi => if doi = "10.1007" then [0] else [],
    parse := fun _ => Except.error () }

/-- Environment with one XML file (id 0) in the first DOI directory parsing
to the row bytes `[7]`. -/
def envOneOk : Env :=
  { remote := [],
    xmlFiles := fun _ doi => if doi = "10.1007" then [0] else [],
    parse := fun _ => Except.ok [7] }

/-- Environment whose remote response body is 8193 zero bytes — one byte
longer than a single 8192-byte chunk. -/
def envBigRemote : Env :=
  { remote := List.replicate 8193 0,
    xmlFiles := fun _ _ => [],
    parse := fun _ => Except.error () }

/-!
## Lemmas about chunking and the digest
-/

theorem chunksGo_foldl_append (n : Nat) (fuel : Nat) :
    ∀ (l : List Nat), l.length ≤ fuel → ∀ acc : List Nat,
      (chunksGo n fuel l).foldl (fun a c => a ++ c) acc = acc ++ l := by
  induction fuel with
  | zero =>
      intro l hl acc
      cases l with
      | nil => simp [chunksGo]
      | cons x xs => simp at hl
  | succ fuel ih =>
      intro l hl acc
      cases l with
      | nil => simp [chunksGo]
      | cons x xs =>
          have hlen : ((x :: xs).drop (n + 1)).length ≤ fuel := by
            simp only [List.length_drop, List.length_cons] at *
            omega
          rw [chunksGo]
          simp only [List.foldl]
          rw [ih _ hlen, List.append_assoc, List.take_append_drop]

theorem chunksOfPos_foldl_append (n : Nat) (l : List Nat) (acc : List Nat) :
    (chunksOfPos n l).foldl (fun a c => a ++ c) acc = acc ++ l :=
  chunksGo_foldl_append n l.length l (Nat.le_refl _) acc

theorem chunksGo_length_le (n : Nat) (fuel : Nat) :
    ∀ (l : List Nat), ∀ c ∈ chunksGo n fuel l, c.length ≤ n + 1 := by
  induction fuel with
  | zero =>
      intro l c hc
      cases l <;> simp [chunksGo] at hc
  | succ fuel ih =>
      intro l c hc
      cases l with
      | nil => simp [chunksGo] at hc
      | cons x xs =>
          rw [chunksGo] at hc
          rcases List.mem_cons.mp hc with h | h
          · subst h
            simp only [List.length_take]
            omega
          · exact ih _ c h

theorem chunksOfPos_length_le (n : Nat) (l : List Nat) :
    ∀ c ∈ chunksOfPos n l, c.length ≤ n + 1 :=
  chunksGo_length_le n l.length l

theorem downloadedBytes_eq (remote : List Nat) :
    downloadedBytes remote = remote := by
  unfold downloadedBytes iter_content requests_get
  rw [chunksOfPos_foldl_append]
  exact List.nil_append remote

/-!
## Lemmas about the conversion loop
-/

theorem foldl_parseAppendStep (env : Env) :
    ∀ (fs : List Nat) (c : Option (List Nat)) (np nf : Nat),
      fs.foldl (parseAppendStep env) (c, np, nf) =
        (csvAfter env c fs, np + okCount env fs, nf + failCount env fs) := by
  intro fs
  induction fs with
  | nil =>
      intro c np nf
      simp [csvAfter, okCount, failCount]
  | cons f fs ih =>
      intro c np nf
      cases h : env.parse f with
      | ok rows =>
          have hp : parseOk env f = true := by simp [parseOk, h]
          simp only [List.foldl, parseAppendStep, h]
          rw [ih]
          simp only [Prod.mk.injEq]
          refine ⟨?_, ?_, ?_⟩
          · simp [csvAfter, csvStep, h]
          · simp only [okCount, List.countP_cons, hp]
            simp
            omega
          · simp only [failCount, List.countP_cons, hp]
            simp
      | error e =>
          have hp : parseOk env f = false := by simp [parseOk, h]
          simp only [List.foldl, parseAppendStep, h]
          rw [ih]
          simp only [Prod.mk.injEq]
          refine ⟨?_, ?_, ?_⟩
          · simp [csvAfter, csvStep, h]
          · simp only [okCount, List.countP_cons, hp]
            simp
          · simp only [failCount, List.countP_cons, hp]
            simp
            omega

theorem conversionLoop_eq (env : Env) (ab : List Nat)
    (csv0 : Option (List Nat)) :
    conversionLoop env ab csv0 =
      (csvAfter env csv0 (filesOf env ab),
       okCount env (filesOf env ab), failCount env (filesOf env ab)) := by
  have h1 : conversionLoop env ab csv0 =
      (filesOf env ab).foldl (parseAppendStep env) (csv0, 0, 0) := by
    unfold conversionLoop filesOf
    rw [List.foldl_flatten, List.foldl_map]
  rw [h1, foldl_parseAppendStep]
  simp

theorem csvAfter_none_iff (env : Env) :
    ∀ (fs : List Nat) (c : Option (List Nat)),
      csvAfter env c fs = none ↔ (c = none ∧ okCount env fs = 0) := by
  intro fs
  induction fs with
  | nil =>
      intro c
      simp [csvAfter, okCount]
  | cons f fs ih =>
      intro c
      have hstep : csvAfter env c (f :: fs) = csvAfter env (csvStep env c f) fs := by
        simp [csvAfter, List.foldl]
      rw [hstep, ih]
      cases h : env.parse f with
      | ok rows =>
          have hp : parseOk env f = true := by simp [parseOk, h]
          simp [csvStep, h, okCount, List.countP_cons, hp]
      | error e =>
          have hp : parseOk env f = false := by simp [parseOk, h]
          simp [csvStep, h, okCount, List.countP_cons, hp]

theorem okCount_add_failCount (env : Env) (fs : List Nat) :
    okCount env fs + failCount env fs = fs.length := by
  unfold okCount failCount
  induction fs with
  | nil => simp
  | cons f fs ih =>
      cases hp : parseOk env f <;>
        simp [List.countP_cons, hp] <;> omega

/-- Full characterization of the convert phase: it extracts, runs the loop,
prints the summary, and either raises `FileNotFoundError` (CSV never
created) or re-checks the digest (warning on mismatch) and writes the
metadata descriptor. -/
theorem convertPhase_spec (hash : List Nat → String) (env : Env)
    (ab : List Nat) (w : World) (t : Trace) :
    convertPhase hash env ab w t =
      (match csvAfter env w.csv (filesOf env ab) with
       | none =>
           (Outcome.error file_not_found_message,
            { w with csv := none },
            { t with
              extracted := true,
              printed := t.printed ++
                [ingested_message (okCount env (filesOf env ab))
                  (failCount env (filesOf env ab))] })
       | some cb =>
           (Outcome.ok,
            { w with
              csv := some cb,
              meta := some (metaDescriptor (okCount env (filesOf env ab))) },
            { t with
              extracted := true,
              printed := t.printed ++
                [ingested_message (okCount env (filesOf env ab))
                  (failCount env (filesOf env ab))],
              warned := t.warned ++
                (if hash cb ≠ final_expected_csv_checksum then
                  [final_csv_warning final_expected_csv_checksum (hash cb)]
                 else []) })) := by
  unfold convertPhase
  rw [conversionLoop_eq]
  cases hc : csvAfter env w.csv (filesOf env ab) with
  | none => simp
  | some cb =>
      by_cases hmis : hash cb ≠ final_expected_csv_checksum
      · simp [hmis]
      · simp [hmis]

theorem shaUpdate_eq : shaUpdate = fun a c => a ++ c := rfl

example : sha256hex [] =
    "e3b0c44298fc1c149afbf4c8996fb92427ae41e4649b934ca495991b7852b855" := by
  decide

example : sha256hex [0x61, 0x62, 0x63] =
    "ba7816bf8f01cfea414140de5dae2223b00361a396177a9cb410ff61f20015ad" := by
  decide

/-!
## Claims
-/

/-- C1: For every finite byte stream, the chunked digest function reads
fixed-size 8192-byte chunks until exhaustion, feeds each into an
incremental SHA-256 accumulator, and returns exactly the same lowercase
hexadecimal digest string as a single-shot SHA-256 hash of the whole byte
sequence — in particular for streams of length 0, 1, 8191, 8192, 8193 and
100000 bytes, as instances of the universally quantified statement. -/
theorem C1_chunked_digest_eq_single_shot (bs : List Nat) :
    sha256_chunked_file_digest bs = sha256hex bs := by
  unfold sha256_chunked_file_digest shaHexdigest
  rw [shaUpdate_eq]
  rw [show shaInit = ([] : List Nat) from rfl, chunksOfPos_foldl_append]
  rw [List.nil_append]

/-- C2: For every run in which the local archive file's computed digest
differs from the pinned constant, the pipeline aborts with a fatal error
whose message carries both the expected and the received digest strings, no
extraction is performed, and the output table is neither created nor
modified. -/
theorem C2_archive_mismatch_aborts (env : Env) (w : World)
    (h : sha256_chunked_file_digest (archiveBytesOf env w) ≠ sha256_checksum) :
    (get_and_transform_data env w).1 =
        Outcome.error (checksum_error_message sha256_checksum
          (sha256_chunked_file_digest (archiveBytesOf env w))) ∧
      (get_and_transform_data env w).2.2.extracted = false ∧
      (get_and_transform_data env w).2.1.csv = w.csv ∧
      (get_and_transform_data env w).2.1.meta = w.meta := by
  unfold get_and_transform_data get_and_transform_data_g
  simp [h]

/-- Concrete instantiation of C2: an absent archive is downloaded as the
empty stream, whose digest is the SHA-256 of the empty message, which
differs from the pin, and the run aborts leaving everything untouched. -/
theorem C2_witness :
    sha256_chunked_file_digest (archiveBytesOf envNone wEmpty) ≠ sha256_checksum ∧
    ((get_and_transform_data envNone wEmpty).1 =
        Outcome.error (checksum_error_message sha256_checksum
          (sha256_chunked_file_digest (archiveBytesOf envNone wEmpty))) ∧
      (get_and_transform_data envNone wEmpty).2.2.extracted = false ∧
      (get_and_transform_data envNone wEmpty).2.1.csv = wEmpty.csv ∧
      (get_and_transform_data envNone wEmpty).2.1.meta = wEmpty.meta) :=
  ⟨by decide, C2_archive_mismatch_aborts envNone wEmpty (by decide)⟩

theorem convertPhase_archive (hash : List Nat → String) (env : Env)
    (ab : List Nat) (w : World) (t : Trace) :
    (convertPhase hash env ab w t).2.1.archive = w.archive := by
  rw [convertPhase_spec]
  cases csvAfter env w.csv (filesOf env ab) <;> simp

theorem convertPhase_downloaded (hash : List Nat → String) (env : Env)
    (ab : List Nat) (w : World) (t : Trace) :
    (convertPhase hash env ab w t).2.2.downloaded = t.downloaded := by
  rw [convertPhase_spec]
  cases csvAfter env w.csv (filesOf env ab) <;> simp

/-- On every run the pipeline leaves the archive file holding exactly the
conditional-download contents, and the download effect fires exactly when
the archive was absent. -/
theorem run_archive_downloaded (hash : List Nat → String) (env : Env)
    (w : World) :
    (get_and_transform_data_g hash env w).2.1.archive =
        some (archiveBytesOf env w) ∧
      (get_and_transform_data_g hash env w).2.2.downloaded =
        w.archive.isNone := by
  unfold get_and_transform_data_g
  by_cases hm : hash (archiveBytesOf env w) = sha256_checksum
  · cases hcsv : w.csv with
    | none =>
        simp [hm, hcsv, convertPhase_archive, convertPhase_downloaded]
    | some cb =>
        by_cases hcb : hash cb = final_expected_csv_checksum
        · simp [hm, hcsv, hcb]
        · simp [hm, hcsv, hcb, convertPhase_archive, convertPhase_downloaded]
  · simp [hm]

/-- A run whose archive digest matches and whose CSV is absent goes
straight to the convert phase. -/
theorem run_fresh_eq (hash : List Nat → String) (env : Env) (w : World)
    (harch : hash (archiveBytesOf env w) = sha256_checksum)
    (hfresh : w.csv = none) :
    get_and_transform_data_g hash env w =
      convertPhase hash env (archiveBytesOf env w)
        ⟨some (archiveBytesOf env w), none, w.oldCsv, w.meta⟩
        ⟨w.archive.isNone, false, [], []⟩ := by
  unfold get_and_transform_data_g
  simp [harch, hfresh]

/-- C3: For every run in which the output table already exists, its digest
equals the pinned final expected digest and the archive digest check
passed, the pipeline reports success and terminates early: no extraction,
the output table's bytes unchanged, and only the early-exit message is
printed (re-running on a correct output is idempotent). -/
theorem C3_early_exit_idempotent (hash : List Nat → String) (env : Env)
    (w : World) (cb : List Nat) (hcsv : w.csv = some cb)
    (harch : hash (archiveBytesOf env w) = sha256_checksum)
    (hmatch : hash cb = final_expected_csv_checksum) :
    (get_and_transform_data_g hash env w).1 = Outcome.ok ∧
      (get_and_transform_data_g hash env w).2.2.extracted = false ∧
      (get_and_transform_data_g hash env w).2.1.csv = some cb ∧
      (get_and_transform_data_g hash env w).2.2.printed =
        [correct_csv_message] := by
  unfold get_and_transform_data_g
  simp [harch, hcsv, hmatch]

/-- Concrete instantiation of C3: empty archive matching the pin under the
oracle, one-byte CSV matching the CSV pin — the run exits early. -/
theorem C3_witness :
    (wCsvOne.csv = some [1] ∧
     hashArchCsv (archiveBytesOf envNone wCsvOne) = sha256_checksum ∧
     hashArchCsv [1] = final_expected_csv_checksum) ∧
    ((get_and_transform_data_g hashArchCsv envNone wCsvOne).1 = Outcome.ok ∧
      (get_and_transform_data_g hashArchCsv envNone wCsvOne).2.2.extracted = false ∧
      (get_and_transform_data_g hashArchCsv envNone wCsvOne).2.1.csv = some [1] ∧
      (get_and_transform_data_g hashArchCsv envNone wCsvOne).2.2.printed =
        [correct_csv_message]) :=
  ⟨⟨rfl, by decide, by decide⟩,
   C3_early_exit_idempotent hashArchCsv envNone wCsvOne [1] rfl (by decide)
     (by decide)⟩

/-- C9: A run that terminates early because the existing output table's
digest matches the pinned value writes no metadata descriptor: `meta.yaml`
is neither created nor updated. -/
theorem C9_early_exit_no_metadata (hash : List Nat → String) (env : Env)
    (w : World) (cb : List Nat) (hcsv : w.csv = some cb)
    (harch : hash (archiveBytesOf env w) = sha256_checksum)
    (hmatch : hash cb = final_expected_csv_checksum) :
    (get_and_transform_data_g hash env w).2.1.meta = w.meta := by
  unfold get_and_transform_data_g
  simp [harch, hcsv, hmatch]

/-- Concrete instantiation of C9: on the early-exit run the metadata file
keeps its prior (absent) state. -/
theorem C9_witness :
    (wCsvOne.csv = some [1] ∧
     hashArchCsv (archiveBytesOf envNone wCsvOne) = sha256_checksum ∧
     hashArchCsv [1] = final_expected_csv_checksum) ∧
    (get_and_transform_data_g hashArchCsv envNone wCsvOne).2.1.meta =
      wCsvOne.meta :=
  ⟨⟨rfl, by decide, by decide⟩,
   C9_early_exit_no_metadata hashArchCsv envNone wCsvOne [1] rfl (by decide)
     (by decide)⟩

theorem convertPhase_oldCsv (hash : List Nat → String) (env : Env)
    (ab : List Nat) (w : World) (t : Trace) :
    (convertPhase hash env ab w t).2.1.oldCsv = w.oldCsv := by
  rw [convertPhase_spec]
  cases csvAfter env w.csv (filesOf env ab) <;> simp

theorem convertPhase_extracted (hash : List Nat → String) (env : Env)
    (ab : List Nat) (w : World) (t : Trace) :
    (convertPhase hash env ab w t).2.2.extracted = true := by
  rw [convertPhase_spec]
  cases csvAfter env w.csv (filesOf env ab) <;> simp

theorem convertPhase_warned_append (hash : List Nat → String) (env : Env)
    (ab : List Nat) (w : World) (t : Trace) :
    ∃ extra, (convertPhase hash env ab w t).2.2.warned = t.warned ++ extra := by
  rw [convertPhase_spec]
  cases csvAfter env w.csv (filesOf env ab) with
  | none => exact ⟨[], by simp⟩
  | some cb =>
      by_cases hm : hash cb ≠ final_expected_csv_checksum
      · exact ⟨[final_csv_warning final_expected_csv_checksum (hash cb)],
          by simp [hm]⟩
      · exact ⟨[], by simp [hm]⟩

/-- A run whose archive digest matches but whose on-disk CSV digest does
not goes to the convert phase after warning and renaming the CSV to
`thermoml_archive.old.csv` (the `.old.csv` slot). -/
theorem run_stale_eq (hash : List Nat → String) (env : Env) (w : World)
    (cb : List Nat) (hcsv : w.csv = some cb)
    (harch : hash (archiveBytesOf env w) = sha256_checksum)
    (hmis : hash cb ≠ final_expected_csv_checksum) :
    get_and_transform_data_g hash env w =
      convertPhase hash env (archiveBytesOf env w)
        ⟨some (archiveBytesOf env w), none, some cb, w.meta⟩
        ⟨w.archive.isNone, false, [stale_csv_warning], []⟩ := by
  unfold get_and_transform_data_g
  simp [harch, hcsv, hmis]

/-- C5: For every run in which the output table exists but its digest does
not match the pinned final expected value, the pipeline warns, renames the
old file aside to `thermoml_archive.old.csv` — whose final content is
byte-identical to the original — and proceeds to rebuild (extraction
happens) rather than aborting. -/
theorem C5_stale_csv_renamed_aside (hash : List Nat → String) (env : Env)
    (w : World) (cb : List Nat) (hcsv : w.csv = some cb)
    (harch : hash (archiveBytesOf env w) = sha256_checksum)
    (hmis : hash cb ≠ final_expected_csv_checksum) :
    (get_and_transform_data_g hash env w).2.1.oldCsv = some cb ∧
      (get_and_transform_data_g hash env w).2.2.extracted = true ∧
      (get_and_transform_data_g hash env w).2.2.warned.head? =
        some stale_csv_warning := by
  rw [run_stale_eq hash env w cb hcsv harch hmis]
  refine ⟨?_, convertPhase_extracted _ _ _ _ _, ?_⟩
  · rw [convertPhase_oldCsv]
  · obtain ⟨extra, hx⟩ := convertPhase_warned_append hash env
      (archiveBytesOf env w)
      ⟨some (archiveBytesOf env w), none, some cb, w.meta⟩
      ⟨w.archive.isNone, false, [stale_csv_warning], []⟩
    rw [hx]
    simp

/-- Concrete instantiation of C5: a one-byte CSV hashing to a non-pinned
value is renamed aside intact and the rebuild proceeds. -/
theorem C5_witness :
    (wCsvOne.csv = some [1] ∧
     hashArchOnly (archiveBytesOf envNone wCsvOne) = sha256_checksum ∧
     hashArchOnly [1] ≠ final_expected_csv_checksum) ∧
    ((get_and_transform_data_g hashArchOnly envNone wCsvOne).2.1.oldCsv =
        some [1] ∧
      (get_and_transform_data_g hashArchOnly envNone wCsvOne).2.2.extracted =
        true ∧
      (get_and_transform_data_g hashArchOnly envNone wCsvOne).2.2.warned.head? =
        some stale_csv_warning) :=
  ⟨⟨rfl, by decide, by decide⟩,
   C5_stale_csv_renamed_aside hashArchOnly envNone wCsvOne [1] rfl (by decide)
     (by decide)⟩

/-- C10: The output-table short-circuit check is unreachable without a
passing archive verification: the conditional download fires first exactly
when the archive is absent, and on a digest mismatch the run aborts with
the fatal error whatever the output table holds — no extraction, and no
early-exit message (nothing) printed. -/
theorem C10_verify_precedes_early_exit (hash : List Nat → String) (env : Env)
    (w : World)
    (hmis : hash (archiveBytesOf env w) ≠ sha256_checksum) :
    (get_and_transform_data_g hash env w).2.2.downloaded =
        w.archive.isNone ∧
      ∀ c : Option (List Nat),
        (get_and_transform_data_g hash env { w with csv := c }).1 =
            Outcome.error (checksum_error_message sha256_checksum
              (hash (archiveBytesOf env w))) ∧
          (get_and_transform_data_g hash env { w with csv := c }).2.2.extracted =
            false ∧
          (get_and_transform_data_g hash env { w with csv := c }).2.2.printed =
            ([] : List String) := by
  refine ⟨(run_archive_downloaded hash env w).2, ?_⟩
  intro c
  have heq : archiveBytesOf env { w with csv := c } = archiveBytesOf env w :=
    rfl
  unfold get_and_transform_data_g
  rw [heq]
  simp [hmis]

/-- Concrete instantiation of C10: under a never-matching digest oracle the
run fails with the checksum error even though the CSV on disk is arbitrary,
and nothing is printed or extracted. -/
theorem C10_witness :
    hashBad (archiveBytesOf envNone wEmpty) ≠ sha256_checksum ∧
    (get_and_transform_data_g hashBad envNone wEmpty).2.2.downloaded =
        wEmpty.archive.isNone ∧
    (get_and_transform_data_g hashBad envNone
        { wEmpty with csv := some [1] }).1 =
      Outcome.error (checksum_error_message sha256_checksum
        (hashBad (archiveBytesOf envNone wEmpty))) ∧
    (get_and_transform_data_g hashBad envNone
        { wEmpty with csv := some [1] }).2.2.extracted = false ∧
    (get_and_transform_data_g hashBad envNone
        { wEmpty with csv := some [1] }).2.2.printed = ([] : List String) :=
  ⟨by decide,
   (C10_verify_precedes_early_exit hashBad envNone wEmpty (by decide)).1,
   ((C10_verify_precedes_early_exit hashBad envNone wEmpty (by decide)).2
     (some [1])).1,
   ((C10_verify_precedes_early_exit hashBad envNone wEmpty (by decide)).2
     (some [1])).2.1,
   ((C10_verify_precedes_early_exit hashBad envNone wEmpty (by decide)).2
     (some [1])).2.2⟩

/-- C8: the streaming conjunct of the claim fails on the code.  At the
failing input — archive absent, a response body of 8193 zero bytes, longer
than one 8192-byte chunk — the fetch fires, and because `requests.get` is
called without `stream=True`, the response already holds all 8193 bytes of
the body in memory before the first chunk is written to disk: the body is
buffered entirely, not streamed.  The disk writes themselves are chunked
as claimed: every chunk is at most 8192 bytes and the chunks reassemble to
exactly the response body. -/
theorem C8_requests_get_buffers_body :
    (get_and_transform_data envBigRemote wEmpty).2.2.downloaded = true ∧
      bufferedBodyBytes envBigRemote.remote = 8193 ∧
      8192 < bufferedBodyBytes envBigRemote.remote ∧
      downloadedBytes envBigRemote.remote = envBigRemote.remote ∧
      (chunksOfPos 8191 envBigRemote.remote).all
        (fun c => decide (c.length ≤ 8192)) = true := by
  have hlen : bufferedBodyBytes envBigRemote.remote = 8193 :=
    List.length_replicate 8193 (0 : Nat)
  refine ⟨?_, hlen, ?_, downloadedBytes_eq _, ?_⟩
  · have h2 := (run_archive_downloaded sha256_chunked_file_digest envBigRemote
      wEmpty).2
    unfold get_and_transform_data
    rw [h2]
    rfl
  · rw [hlen]
    omega
  · rw [List.all_eq_true]
    intro c hc
    have hle := chunksOfPos_length_le 8191 envBigRemote.remote c hc
    simpa using hle

/-- Counterexample to C4 as stated: a batch of N = 1 record files with
K = 1 parse failures (and no pre-existing output table).  The loop
completes and the counters read 0 successes, 1 failure, but reopening the
never-created CSV raises `FileNotFoundError`, so the run aborts and
metadata emission is never reached. -/
theorem C4_counterexample :
    (get_and_transform_data_g hashPin envOneFail wArchOnly).2.2.printed =
        [ingested_message 0 1] ∧
      (get_and_transform_data_g hashPin envOneFail wArchOnly).1 =
        Outcome.error file_not_found_message ∧
      (get_and_transform_data_g hashPin envOneFail wArchOnly).2.1.meta =
        none :=
  ⟨by decide, by decide, by decide⟩

/-- C4 (amended): for every batch of enumerated record files, the success
counter printed equals the number of files whose parse succeeds and the
failure counter the number that raise (so successes = N − K and failures
= K); failures only bump the counter and the loop continues.  Metadata
emission is reached whenever at least one record parses (the CSV then
exists); when every record fails on a fresh output path, the re-open of
the output table raises `FileNotFoundError` before metadata emission. -/
theorem C4_parse_failures_counted (hash : List Nat → String) (env : Env)
    (w : World)
    (harch : hash (archiveBytesOf env w) = sha256_checksum)
    (hfresh : w.csv = none) :
    (get_and_transform_data_g hash env w).2.2.printed =
        [ingested_message (okCount env (filesOf env (archiveBytesOf env w)))
          (failCount env (filesOf env (archiveBytesOf env w)))] ∧
      okCount env (filesOf env (archiveBytesOf env w)) +
          failCount env (filesOf env (archiveBytesOf env w)) =
        (filesOf env (archiveBytesOf env w)).length ∧
      (0 < okCount env (filesOf env (archiveBytesOf env w)) →
        (get_and_transform_data_g hash env w).1 = Outcome.ok ∧
          (get_and_transform_data_g hash env w).2.1.meta =
            some (metaDescriptor
              (okCount env (filesOf env (archiveBytesOf env w))))) ∧
      (okCount env (filesOf env (archiveBytesOf env w)) = 0 →
        (get_and_transform_data_g hash env w).1 =
          Outcome.error file_not_found_message) := by
  rw [run_fresh_eq hash env w harch hfresh, convertPhase_spec]
  dsimp only
  cases hc : csvAfter env none (filesOf env (archiveBytesOf env w)) with
  | none =>
      have h0 : okCount env (filesOf env (archiveBytesOf env w)) = 0 :=
        ((csvAfter_none_iff env _ none).mp hc).2
      refine ⟨by simp, okCount_add_failCount env _, ?_, ?_⟩
      · intro hpos
        rw [h0] at hpos
        exact absurd hpos (by omega)
      · intro _
        simp
  | some cb =>
      have hnz : ¬ okCount env (filesOf env (archiveBytesOf env w)) = 0 := by
        intro h0
        have hcontra : csvAfter env none
            (filesOf env (archiveBytesOf env w)) = none :=
          (csvAfter_none_iff env _ none).mpr ⟨rfl, h0⟩
        rw [hc] at hcontra
        exact Option.noConfusion hcontra
      refine ⟨by simp, okCount_add_failCount env _, ?_, ?_⟩
      · intro _
        exact ⟨by simp, by simp⟩
      · intro h0
        exact absurd h0 hnz

/-- Concrete instantiation of the amended C4: one record file parsing
successfully — counters 1 and 0, run succeeds, metadata carries count 1. -/
theorem C4_witness :
    (hashPin (archiveBytesOf envOneOk wArchOnly) = sha256_checksum ∧
     wArchOnly.csv = none ∧
     0 < okCount envOneOk (filesOf envOneOk (archiveBytesOf envOneOk wArchOnly))) ∧
    ((get_and_transform_data_g hashPin envOneOk wArchOnly).2.2.printed =
        [ingested_message
          (okCount envOneOk (filesOf envOneOk (archiveBytesOf envOneOk wArchOnly)))
          (failCount envOneOk (filesOf envOneOk (archiveBytesOf envOneOk wArchOnly)))] ∧
      (get_and_transform_data_g hashPin envOneOk wArchOnly).1 = Outcome.ok ∧
      (get_and_transform_data_g hashPin envOneOk wArchOnly).2.1.meta =
        some (metaDescriptor
          (okCount envOneOk (filesOf envOneOk (archiveBytesOf envOneOk wArchOnly))))) :=
  ⟨⟨by decide, rfl, by decide⟩,
   (C4_parse_failures_counted hashPin envOneOk wArchOnly (by decide) rfl).1,
   ((C4_parse_failures_counted hashPin envOneOk wArchOnly (by decide) rfl).2.2.1
     (by decide)).1,
   ((C4_parse_failures_counted hashPin envOneOk wArchOnly (by decide) rfl).2.2.1
     (by decide)).2⟩

/-- Counterexample to C6 as stated: a run in which the conversion loop
completes over zero record files (the summary line for 0 successes and 0
failures is printed, witnessing loop completion) yet no metadata document
is written at all — the run aborts on reopening the absent CSV before the
metadata construction. -/
theorem C6_counterexample :
    (get_and_transform_data_g hashPin envNone wArchOnly).2.2.printed =
        [ingested_message 0 0] ∧
      (get_and_transform_data_g hashPin envNone wArchOnly).1 =
        Outcome.error file_not_found_message ∧
      (get_and_transform_data_g hashPin envNone wArchOnly).2.1.meta = none :=
  ⟨by decide, by decide, by decide⟩

/-- C6 (amended): for every run in which the conversion loop completes and
the output table exists afterwards (at least one record parsed on the
fresh path), the emitted metadata descriptor's `num_points` field equals
the success counter of that same run, and the metadata document is written
whatever its prior contents were (unconditional overwrite). -/
theorem C6_metadata_num_points (hash : List Nat → String) (env : Env)
    (w : World)
    (harch : hash (archiveBytesOf env w) = sha256_checksum)
    (hfresh : w.csv = none)
    (hok : 0 < okCount env (filesOf env (archiveBytesOf env w))) :
    ∀ m : Option MetaYaml,
      (get_and_transform_data_g hash env
          ⟨w.archive, w.csv, w.oldCsv, m⟩).2.1.meta =
          some (metaDescriptor
            (okCount env (filesOf env (archiveBytesOf env w)))) ∧
        (metaDescriptor
            (okCount env (filesOf env (archiveBytesOf env w)))).num_points =
          okCount env (filesOf env (archiveBytesOf env w)) := by
  intro m
  have heq : archiveBytesOf env (⟨w.archive, w.csv, w.oldCsv, m⟩ : World) =
      archiveBytesOf env w := rfl
  have harch' : hash (archiveBytesOf env
      (⟨w.archive, w.csv, w.oldCsv, m⟩ : World)) = sha256_checksum := harch
  have hfresh' : (⟨w.archive, w.csv, w.oldCsv, m⟩ : World).csv = none := hfresh
  rw [run_fresh_eq hash env _ harch' hfresh', heq, convertPhase_spec]
  dsimp only
  cases hc : csvAfter env none (filesOf env (archiveBytesOf env w)) with
  | none =>
      have h0 : okCount env (filesOf env (archiveBytesOf env w)) = 0 :=
        ((csvAfter_none_iff env _ none).mp hc).2
      rw [h0] at hok
      exact absurd hok (by omega)
  | some cb => exact ⟨by simp, rfl⟩

/-- Concrete instantiation of the amended C6 at a prior metadata document
(count 5): the rerun overwrites it with the fresh success count 1. -/
theorem C6_witness :
    (hashPin (archiveBytesOf envOneOk wArchOnly) = sha256_checksum ∧
     wArchOnly.csv = none ∧
     0 < okCount envOneOk (filesOf envOneOk (archiveBytesOf envOneOk wArchOnly))) ∧
    ((get_and_transform_data_g hashPin envOneOk
        ⟨wArchOnly.archive, wArchOnly.csv, wArchOnly.oldCsv,
          some (metaDescriptor 5)⟩).2.1.meta =
        some (metaDescriptor
          (okCount envOneOk (filesOf envOneOk (archiveBytesOf envOneOk wArchOnly)))) ∧
      (metaDescriptor
          (okCount envOneOk (filesOf envOneOk (archiveBytesOf envOneOk wArchOnly)))).num_points =
        okCount envOneOk (filesOf envOneOk (archiveBytesOf envOneOk wArchOnly))) :=
  ⟨⟨by decide, rfl, by decide⟩,
   C6_metadata_num_points hashPin envOneOk wArchOnly (by decide) rfl
     (by decide) (some (metaDescriptor 5))⟩

/-- C7: For every run in which the conversion loop completes, the rebuilt
output table exists, and its recomputed digest does not equal the pinned
final expected value, only a non-fatal warning is emitted: the run still
returns normally, the warning is the only one issued on the fresh path,
and the metadata descriptor is still written with the loop's success
count. -/
theorem C7_final_mismatch_soft (hash : List Nat → String) (env : Env)
    (w : World) (cb : List Nat)
    (harch : hash (archiveBytesOf env w) = sha256_checksum)
    (hfresh : w.csv = none)
    (hafter : csvAfter env none (filesOf env (archiveBytesOf env w)) = some cb)
    (hmis : hash cb ≠ final_expected_csv_checksum) :
    (get_and_transform_data_g hash env w).1 = Outcome.ok ∧
      (get_and_transform_data_g hash env w).2.2.warned =
        [final_csv_warning final_expected_csv_checksum (hash cb)] ∧
      (get_and_transform_data_g hash env w).2.1.meta =
        some (metaDescriptor
          (okCount env (filesOf env (archiveBytesOf env w)))) := by
  rw [run_fresh_eq hash env w harch hfresh, convertPhase_spec]
  dsimp only
  rw [hafter]
  simp [hmis]

/-- Concrete instantiation of C7: the rebuilt one-row CSV hashes to a
non-pinned value under the oracle; the run still succeeds, warns once, and
writes metadata with count 1. -/
theorem C7_witness :
    (hashArchOnly (archiveBytesOf envOneOk wArchOnly) = sha256_checksum ∧
     wArchOnly.csv = none ∧
     csvAfter envOneOk none
         (filesOf envOneOk (archiveBytesOf envOneOk wArchOnly)) = some [7] ∧
     hashArchOnly [7] ≠ final_expected_csv_checksum) ∧
    ((get_and_transform_data_g hashArchOnly envOneOk wArchOnly).1 =
        Outcome.ok ∧
      (get_and_transform_data_g hashArchOnly envOneOk wArchOnly).2.2.warned =
        [final_csv_warning final_expected_csv_checksum (hashArchOnly [7])] ∧
      (get_and_transform_data_g hashArchOnly envOneOk wArchOnly).2.1.meta =
        some (metaDescriptor
          (okCount envOneOk (filesOf envOneOk (archiveBytesOf envOneOk wArchOnly))))) :=
  ⟨⟨by decide, rfl, by decide, by decide⟩,
   C7_final_mismatch_soft hashArchOnly envOneOk wArchOnly [7] (by decide) rfl
     (by decide) (by decide)⟩
